import Mathlib

/-!
Verification of the staged social-media synchronization pipeline
(`src/dockerize/agent/facebook_scraper.py` and
`src/dockerize/agent/instagram_scraper.py`).

The embedding models:
* the normalized row types (`PostRow`, `CommentRow`, `IgPostRow`) that the
  `process_posts_data` / `process_comments_data` stages emit;
* raw API records (`RawPost`, `RawComment`, `RawIgPost`, `RawIgComment`) with
  optional fields standing for absent JSON keys / pandas NaN cells;
* the LangGraph pipeline context (`Ctx`) as a record of optional fields —
  `none` means the key has not been written into the state yet; each stage
  returns a partial update (also a `Ctx`) that `mergeCtx` merges in,
  update-wins per field, exactly as LangGraph merges node outputs;
* the database (`DB`) as the two destination tables plus the two optional
  staging tables, and `save_to_database` as the staged delete-then-insert
  merge with an explicit failure oracle (`SaveStep → Option String`) standing
  for SQL exceptions; each transaction commits or rolls back atomically, so a
  failed insert leaves the post-delete state and the staging table in place,
  mirroring the Python control flow where the `DROP TABLE` only runs inside
  the insert transaction;
* external effects (engine creation, the HTTP fetch, pandas exceptions) as
  injected `Except` / `Option String` oracles, since every stage wraps its
  body in `try/except` and converts any failure into a `status=error` update.
-/

namespace McpScraper

/-- A normalized post row, the column schema written by `process_posts_data`
(Facebook variant). `user_id`/`agent_id` are `Option` because the source
assigns the scalars 1/3 to a still-empty DataFrame: the first Series
assignment (`post_url`) enlarges the index and reindexes those two columns
with NaN, so every emitted row carries NaN there — modeled as `none`. -/
structure PostRow where
  user_id : Option Nat
  agent_id : Option Nat
  post_url : String
  platform : String
  post_id : String
  post_caption : String
  time_stamp : String
  total_likes : Nat
  total_comments : Nat
  total_shares : Nat
deriving DecidableEq

/-- A normalized comment row. The fields built with `dict.get` in the source
default to Python `None`, hence `Option`. -/
structure CommentRow where
  post_id : String
  comment_id : Option String
  comment_message : Option String
  comment_time : Option String
  commenter : Option String
deriving DecidableEq

/-- A raw Facebook comment as returned inside a post's `comments.data`
collection; every field is read with `.get`, so each is optional. -/
structure RawComment where
  id : Option String
  message : Option String
  created_time : Option String
  from_name : Option String
deriving DecidableEq

/-- A raw Facebook post record. `likes`/`comments` model the nested
`likes.summary.total_count` lookups: the outer `Option` is "the field is a
dict", the inner one is "the dict has `summary.total_count`"; both lookups
default to `0` in the source. `comments` is the nested `comments.data`
list (empty when absent). -/
structure RawPost where
  id : String
  message : Option String
  created_time : String
  likes : Option (Option Nat)
  comments_summary : Option (Option Nat)
  shares : Option Nat
  comments : List RawComment
deriving DecidableEq

/-- `lambda x: x.get("summary", {}).get("total_count", 0) if isinstance(x, dict) else 0`. -/
def fbCount : Option (Option Nat) → Nat
  | none => 0
  | some none => 0
  | some (some n) => n

/-- `lambda x: x.get("count", 0) if isinstance(x, dict) else 0` for `shares`. -/
def fbShares : Option Nat → Nat
  | none => 0
  | some n => n

/-- One Facebook post row, as assembled into `df_posts_db` by
`process_posts_data` (facebook_scraper.py lines 148-158). The
`user_id`/`agent_id` scalars are assigned to the empty frame before the
first Series assignment, so the reindex leaves NaN (`none`) in both. -/
def fbPostRow (p : RawPost) : PostRow :=
  { user_id := none
    agent_id := none
    post_url := "https://www.facebook.com/me/posts/" ++ p.id
    platform := "facebook"
    post_id := p.id
    post_caption := p.message.getD ""
    time_stamp := p.created_time
    total_likes := fbCount p.likes
    total_comments := fbCount p.comments_summary
    total_shares := fbShares p.shares }

/-- The Facebook normalizer's per-row output once the column accesses have
succeeded: one row per raw post. -/
def fbProcessPostsRows (ps : List RawPost) : List PostRow :=
  ps.map fbPostRow

/-- The first optional column the Facebook `process_posts_data` accesses
that is missing from the whole batch: a pandas column exists iff at least
one record carries the field, and the source reads `message`/`shares`
(line 138 selection) then `likes`, then `comments` (lines 143-144) with no
existence check, raising `KeyError` when the column is absent. -/
def fbMissingColumn (ps : List RawPost) : Option String :=
  if !(ps.any (fun p => p.message.isSome)) then some "message"
  else if !(ps.any (fun p => p.shares.isSome)) then some "shares"
  else if !(ps.any (fun p => p.likes.isSome)) then some "likes"
  else if !(ps.any (fun p => p.comments_summary.isSome)) then some "comments"
  else none

/-- The Facebook normalizer on a non-empty batch: a `KeyError` (carrying the
missing column's name, as `str(KeyError(...))` renders it) when an optional
field is absent from every record, otherwise one defaulted row per post. -/
def fbProcessPosts (ps : List RawPost) : Except String (List PostRow) :=
  match fbMissingColumn ps with
  | some col => .error ("\x27" ++ col ++ "\x27")
  | none => .ok (fbProcessPostsRows ps)

/-- One Facebook comment row (facebook_scraper.py lines 198-204). -/
def fbCommentRow (pid : String) (c : RawComment) : CommentRow :=
  { post_id := pid
    comment_id := c.id
    comment_message := c.message
    comment_time := c.created_time
    commenter := c.from_name }

/-- The comment rows emitted for one Facebook post:
`comments_data[:comment_limit]`, head of the adapter order. -/
def fbCommentsFor (cl : Nat) (p : RawPost) : List CommentRow :=
  (p.comments.take cl).map (fbCommentRow p.id)

/-- The full comment list built by the Facebook `process_comments_data` loop. -/
def fbBuildComments (cl : Nat) (ps : List RawPost) : List CommentRow :=
  ps.flatMap (fbCommentsFor cl)

/-- A raw Instagram comment (`fields=id,username,text,timestamp`). -/
structure RawIgComment where
  id : Option String
  username : Option String
  text : Option String
  timestamp : Option String
deriving DecidableEq

/-- A raw Instagram media record with its attached `comments_data` list. -/
structure RawIgPost where
  id : String
  caption : Option String
  like_count : Option Nat
  comments_count : Option Nat
  timestamp : Option String
  comments_data : List RawIgComment
deriving DecidableEq

/-- An Instagram post row. Unlike the Facebook variant, the count and
timestamp columns are copied without per-row defaulting (`df_main["like_count"]
if "like_count" in df_main else 0`), so a row can carry a NaN cell — modeled
as `none`. -/
structure IgPostRow where
  user_id : Option Nat
  agent_id : Option Nat
  post_url : String
  platform : String
  post_id : String
  post_caption : String
  time_stamp : Option String
  total_likes : Option Nat
  total_comments : Option Nat
  total_shares : Nat
deriving DecidableEq

/-- The Instagram `process_posts_data` row construction
(instagram_scraper.py lines 131-142). A pandas column exists iff some record
carries the key; when the column is absent the source assigns a scalar
default to every row, otherwise the per-row value (possibly NaN) is copied —
only `caption` gets a `fillna("")`. As in the Facebook variant, the
`user_id`/`agent_id` scalars are assigned before the first Series
assignment and end up NaN after the reindex. -/
def igProcessPostsRows (ps : List RawIgPost) : List IgPostRow :=
  let hasCaption := ps.any (fun p => p.caption.isSome)
  let hasTimestamp := ps.any (fun p => p.timestamp.isSome)
  let hasLikes := ps.any (fun p => p.like_count.isSome)
  let hasComments := ps.any (fun p => p.comments_count.isSome)
  ps.map (fun p =>
    { user_id := none
      agent_id := none
      post_url := "https://www.instagram.com/p/" ++ p.id
      platform := "instagram"
      post_id := p.id
      post_caption := if hasCaption then p.caption.getD "" else ""
      time_stamp := if hasTimestamp then p.timestamp else some ""
      total_likes := if hasLikes then p.like_count else some 0
      total_comments := if hasComments then p.comments_count else some 0
      total_shares := 0 })

/-- One Instagram comment row (instagram_scraper.py lines 175-181). -/
def igCommentRow (pid : String) (c : RawIgComment) : CommentRow :=
  { post_id := pid
    comment_id := c.id
    comment_message := c.text
    comment_time := c.timestamp
    commenter := c.username }

/-- The comment rows emitted for one Instagram post: the loop iterates over
`post.get("comments_data", [])` with no slicing — `comment_limit` is not
consulted here. -/
def igCommentsFor (q : RawIgPost) : List CommentRow :=
  q.comments_data.map (igCommentRow q.id)

/-- The full comment list built by the Instagram `process_comments_data` loop. -/
def igBuildComments (ps : List RawIgPost) : List CommentRow :=
  ps.flatMap igCommentsFor

/-! ## The destination store and the staged merge writer -/

/-- SQL equality on a nullable column: `NULL = x` is never true, so a `none`
on either side fails the match. -/
def sqlEqOpt : Option String → Option String → Bool
  | some a, some b => a == b
  | _, _ => false

/-- The posts delete-phase join condition:
`social_media_scraped_data.post_id = social_media_scraped_data_stg.post_id`. -/
def postKeyMatch (s r : PostRow) : Bool :=
  s.post_id == r.post_id

/-- The comments delete-phase join condition: `post_id` and `comment_id`
must both match (SQL semantics on the nullable `comment_id`). -/
def commentKeyMatch (s r : CommentRow) : Bool :=
  s.post_id == r.post_id && sqlEqOpt s.comment_id r.comment_id

/-- The posts `DELETE ... USING` phase: remove every destination row matched
by some staging row. -/
def deletePosts (stg dest : List PostRow) : List PostRow :=
  dest.filter (fun r => !(stg.any (fun s => postKeyMatch s r)))

/-- The comments `DELETE ... USING` phase. -/
def deleteComments (stg dest : List CommentRow) : List CommentRow :=
  dest.filter (fun r => !(stg.any (fun s => commentKeyMatch s r)))

/-- Delete-then-insert merge of a staged posts row-set into the destination. -/
def mergePosts (rows dest : List PostRow) : List PostRow :=
  deletePosts rows dest ++ rows

/-- Delete-then-insert merge of a staged comments row-set into the destination. -/
def mergeComments (rows dest : List CommentRow) : List CommentRow :=
  deleteComments rows dest ++ rows

/-- The database: two destination tables plus the two staging tables
(`none` = the staging table does not exist). -/
structure DB where
  posts : List PostRow
  comments : List CommentRow
  postsStg : Option (List PostRow)
  commentsStg : Option (List CommentRow)
deriving DecidableEq

/-! ## The pipeline context and the stage functions (Facebook pipeline) -/

/-- The LangGraph state dict. Every field is optional: `none` means the key
is not present in the accumulated state. `raw_posts_data` is doubly
optional: the inner `none` models a dict without a `"data"` key (the `{}`
written on fetch failure); `db_engine`'s inner `none` models the Python
`None` written on a failed initialization, the engine itself being opaque. -/
structure Ctx where
  post_limit : Option Nat := none
  comment_limit : Option Nat := none
  access_token : Option String := none
  raw_posts_data : Option (Option (List RawPost)) := none
  processed_posts_df : Option (List PostRow) := none
  processed_comments_df : Option (List CommentRow) := none
  db_engine : Option (Option Unit) := none
  posts_scraped : Option Nat := none
  comments_scraped : Option Nat := none
  posts_data : Option (List PostRow) := none
  comments_data : Option (List CommentRow) := none
  status : Option String := none
  message : Option String := none
deriving DecidableEq

/-- One field of a LangGraph partial-update merge: the update's value wins
when the update mentions the key, otherwise the old value stays. -/
def mergeField (u c : Option α) : Option α :=
  match u with
  | some v => some v
  | none => c

/-- Merge a stage's partial update `u` into the accumulated context `c`,
field by field, update-wins — LangGraph's dict merge. -/
def mergeCtx (c u : Ctx) : Ctx :=
  { post_limit := mergeField u.post_limit c.post_limit
    comment_limit := mergeField u.comment_limit c.comment_limit
    access_token := mergeField u.access_token c.access_token
    raw_posts_data := mergeField u.raw_posts_data c.raw_posts_data
    processed_posts_df := mergeField u.processed_posts_df c.processed_posts_df
    processed_comments_df := mergeField u.processed_comments_df c.processed_comments_df
    db_engine := mergeField u.db_engine c.db_engine
    posts_scraped := mergeField u.posts_scraped c.posts_scraped
    comments_scraped := mergeField u.comments_scraped c.comments_scraped
    posts_data := mergeField u.posts_data c.posts_data
    comments_data := mergeField u.comments_data c.comments_data
    status := mergeField u.status c.status
    message := mergeField u.message c.message }

/-- Stage 1, `initialize_scraper`: engine creation and the connection test
are the injected `res`; both arms return defaults, token, engine handle (or
Python `None`), status and message. -/
def init_scraper (c : Ctx) (tok : String) (res : Except String Unit) : Ctx :=
  let pl := c.post_limit.getD 5
  let cl := c.comment_limit.getD 5
  match res with
  | .ok _ =>
    { post_limit := some pl
      comment_limit := some cl
      access_token := some tok
      db_engine := some (some ())
      status := some "initialized"
      message := some "Scraper initialized successfully" }
  | .error e =>
    { post_limit := some pl
      comment_limit := some cl
      access_token := some tok
      db_engine := some none
      status := some "error"
      message := some ("Database connection failed: " ++ e) }

/-- Stage 2, `fetch_facebook_posts`: the whole HTTP round-trip is the
injected `res`; on success the returned json may or may not carry a
`"data"` key, on failure `raw_posts_data` is set to the empty dict. -/
def fetch_facebook_posts (res : Except String (Option (List RawPost))) : Ctx :=
  match res with
  | .ok d =>
    { raw_posts_data := some d
      status := some "posts_fetched"
      message := some s!"Successfully fetched {(d.getD []).length} posts" }
  | .error e =>
    { raw_posts_data := some none
      status := some "error"
      message := some ("Failed to fetch posts: " ++ e) }

/-- Stage 3, `process_posts_data`. The guard branch fires when
`raw_posts_data` is unset or lacks `"data"`; it sets only the (empty)
DataFrame, status and message — not `posts_scraped`/`posts_data`. `exc`
injects a pandas exception inside the non-empty processing block, which the
stage's `except` converts into an error update; the deterministic `KeyError`
raised when an optional column is missing from the whole batch
(`fbProcessPosts`) lands in the same `except`. -/
def process_posts_data (c : Ctx) (exc : Option String) : Ctx :=
  match c.raw_posts_data.getD none with
  | none =>
    { processed_posts_df := some []
      status := some "error"
      message := some "No posts data to process" }
  | some ps =>
    if ps.isEmpty then
      { processed_posts_df := some []
        posts_scraped := some 0
        posts_data := some []
        status := some "success"
        message := some "No posts found" }
    else
      match exc with
      | some e =>
        { processed_posts_df := some []
          posts_scraped := some 0
          posts_data := some []
          status := some "error"
          message := some ("Failed to process posts: " ++ e) }
      | none =>
        match fbProcessPosts ps with
        | .error ke =>
          { processed_posts_df := some []
            posts_scraped := some 0
            posts_data := some []
            status := some "error"
            message := some ("Failed to process posts: " ++ ke) }
        | .ok rows =>
          { processed_posts_df := some rows
            posts_scraped := some rows.length
            posts_data := some rows
            status := some "posts_processed"
            message := some s!"Successfully processed {rows.length} posts" }

/-- Stage 4, `process_comments_data`. With a non-empty post list the loop
body reads `state["comment_limit"]`; an unset key raises a `KeyError` that
the `except` turns into an error update. `comments_data` reproduces the
`records if not df.empty else []` ternary. -/
def process_comments_data (c : Ctx) (exc : Option String) : Ctx :=
  match c.raw_posts_data.getD none with
  | none =>
    { processed_comments_df := some []
      comments_scraped := some 0
      comments_data := some []
      status := some "error"
      message := some "No posts data available for comment processing" }
  | some ps =>
    if ps.isEmpty then
      { processed_comments_df := some []
        comments_scraped := some 0
        comments_data := some []
        status := some "comments_processed"
        message := some "Successfully processed 0 comments" }
    else
      match c.comment_limit with
      | none =>
        { processed_comments_df := some []
          comments_scraped := some 0
          comments_data := some []
          status := some "error"
          message := some "Failed to process comments: \x27comment_limit\x27" }
      | some cl =>
        match exc with
        | some e =>
          { processed_comments_df := some []
            comments_scraped := some 0
            comments_data := some []
            status := some "error"
            message := some ("Failed to process comments: " ++ e) }
        | none =>
          let rows := fbBuildComments cl ps
          { processed_comments_df := some rows
            comments_scraped := some rows.length
            comments_data := some (if rows.isEmpty then [] else rows)
            status := some "comments_processed"
            message := some s!"Successfully processed {rows.length} comments" }

/-- The SQL statements `save_to_database` executes, in order; the failure
oracle decides which (if any) raises. -/
inductive SaveStep where
  | stgPosts
  | delPosts
  | insPosts
  | stgComments
  | delComments
  | insComments
deriving DecidableEq

/-- The `except` branch's update. -/
def saveErrUpd (e : String) : Ctx :=
  { status := some "error"
    message := some ("Failed to save to database: " ++ e) }

/-- The posts half of `save_to_database`: `to_sql(..., if_exists="replace")`
into the staging table, the delete transaction, then the insert+drop
transaction. A failing step raises; each transaction commits alone, so a
failure surfaces the database state committed so far — in particular the
insert transaction's rollback undoes the `DROP TABLE`, leaving the staging
table behind. -/
def savePostsPhase (pdf : List PostRow) (fail : SaveStep → Option String)
    (db : DB) : Except (String × DB) DB :=
  if pdf.isEmpty then .ok db
  else
    match fail .stgPosts with
    | some e => .error (e, db)
    | none =>
      let db1 : DB := { db with postsStg := some pdf }
      match fail .delPosts with
      | some e => .error (e, db1)
      | none =>
        let db2 : DB := { db1 with posts := deletePosts pdf db1.posts }
        match fail .insPosts with
        | some e => .error (e, db2)
        | none => .ok { db2 with posts := db2.posts ++ pdf, postsStg := none }

/-- The comments half of `save_to_database`, same staging/delete/insert+drop
sequence against the comments tables. -/
def saveCommentsPhase (cdf : List CommentRow) (fail : SaveStep → Option String)
    (db : DB) : Except (String × DB) DB :=
  if cdf.isEmpty then .ok db
  else
    match fail .stgComments with
    | some e => .error (e, db)
    | none =>
      let db1 : DB := { db with commentsStg := some cdf }
      match fail .delComments with
      | some e => .error (e, db1)
      | none =>
        let db2 : DB := { db1 with comments := deleteComments cdf db1.comments }
        match fail .insComments with
        | some e => .error (e, db2)
        | none => .ok { db2 with comments := db2.comments ++ cdf, commentsStg := none }

/-- Stage 5, `save_to_database`: guard on the engine handle, then the posts
phase and the comments phase; any step failure is caught by the stage's
`except` and reported as an error update, with whatever database state the
committed transactions left behind. -/
def save_to_database (c : Ctx) (fail : SaveStep → Option String) (db : DB) :
    Ctx × DB :=
  if (c.db_engine.getD none).isNone then
    ({ status := some "error"
       message := some "Database connection not available" }, db)
  else
    match savePostsPhase (c.processed_posts_df.getD []) fail db with
    | .error (e, db1) => (saveErrUpd e, db1)
    | .ok dbp =>
      match saveCommentsPhase (c.processed_comments_df.getD []) fail dbp with
      | .error (e, db1) => (saveErrUpd e, db1)
      | .ok dbc =>
        ({ status := some "success"
           message := some s!"Successfully saved {c.posts_scraped.getD 0} posts and {c.comments_scraped.getD 0} comments to database" },
         dbc)

/-- The pipeline's terminal output record (the `ScraperOutput` schema). -/
structure ScraperOutput where
  posts_scraped : Nat
  comments_scraped : Nat
  posts_data : List PostRow
  comments_data : List CommentRow
  status : String
  message : String
deriving DecidableEq

/-- Stage 6, `finalize_results`: project the accumulated context onto the
output schema with the documented defaults. -/
def finalize_results (c : Ctx) : ScraperOutput :=
  { posts_scraped := c.posts_scraped.getD 0
    comments_scraped := c.comments_scraped.getD 0
    posts_data := c.posts_data.getD []
    comments_data := c.comments_data.getD []
    status := c.status.getD "completed"
    message := c.message.getD "Scraping completed" }

/-- All external outcomes of one pipeline run: the access token, the engine
creation result, the fetch result, injected pandas exceptions for the two
processing stages, and the SQL failure oracle for the save stage. -/
structure Externals where
  token : String
  initResult : Except String Unit
  fetchResult : Except String (Option (List RawPost))
  postsExc : Option String
  commentsExc : Option String
  saveFail : SaveStep → Option String

/-- The caller-supplied initial state (the `ScraperInput` schema keys, which
may be absent). -/
def initialCtx (pl cl : Option Nat) : Ctx :=
  { post_limit := pl, comment_limit := cl }

/-- The compiled LangGraph: the strictly linear stage sequence
initialize → fetch → process posts → process comments → save → finalize,
each stage's partial update merged into the accumulated context. -/
def runPipeline (pl cl : Option Nat) (ext : Externals) (db : DB) :
    ScraperOutput × DB :=
  let c0 := initialCtx pl cl
  let c1 := mergeCtx c0 (init_scraper c0 ext.token ext.initResult)
  let c2 := mergeCtx c1 (fetch_facebook_posts ext.fetchResult)
  let c3 := mergeCtx c2 (process_posts_data c2 ext.postsExc)
  let c4 := mergeCtx c3 (process_comments_data c3 ext.commentsExc)
  let sv := save_to_database c4 ext.saveFail db
  let c5 := mergeCtx c4 sv.1
  (finalize_results c5, sv.2)

/-! ## Concrete scenario inputs and derived definitions -/

/-- The database state after a fully successful `save_to_database` call. -/
def saveOkDB (pdf : List PostRow) (cdf : List CommentRow) (db : DB) : DB :=
  let dbp := if pdf.isEmpty then db
    else { db with posts := mergePosts pdf db.posts, postsStg := none }
  if cdf.isEmpty then dbp
  else { dbp with comments := mergeComments cdf dbp.comments, commentsStg := none }

/-- A concrete posts row used by the C3 scenario. -/
def c3PostRow : PostRow := ⟨some 1, some 3, "v", "facebook", "p1", "new", "t2", 1, 2, 3⟩

/-- A comment row whose `comment_id` is NULL, as `process_comments_data`
produces for a raw comment without an `id` (`comment.get("id")`). -/
def nullIdComment : CommentRow := ⟨"p1", none, none, none, none⟩

/-- The save-stage context holding that single staged comment row. -/
def nullIdCtx : Ctx :=
  { db_engine := some (some ()), processed_comments_df := some [nullIdComment] }

/-- A concrete save-stage context for exercising `mergeIdempotentAmended`:
one staged post row and one staged comment row with a concrete `comment_id`. -/
def idemCtx : Ctx :=
  { db_engine := some (some ())
    processed_posts_df := some [⟨some 1, some 3, "v", "facebook", "p1", "cap", "t", 1, 2, 3⟩]
    processed_comments_df := some [⟨"p1", some "c1", some "hi", some "t", some "u"⟩] }

/-- An Instagram media record carrying 10 nested comments. -/
def igPostTen : RawIgPost :=
  ⟨"m1", some "cap", some 1, some 10, some "ts",
    List.replicate 10 ⟨some "c", some "u", some "t", some "ts"⟩⟩

/-- The external outcomes of the C1 scenario: initialization succeeds, the
fetch raises, nothing else fails. -/
def c1Externals : Externals :=
  { token := "tok"
    initResult := .ok ()
    fetchResult := .error "network down"
    postsExc := none
    commentsExc := none
    saveFail := fun _ => none }

/-! ## Helper lemmas -/

lemma if_isEmpty_eq (l : List α) : (if l.isEmpty then ([] : List α) else l) = l := by
  cases l <;> simp

lemma if_eq_nil_eq (l : List α) [Decidable (l = [])] :
    (if l = [] then ([] : List α) else l) = l := by
  split <;> simp_all

lemma mergeField_none_right (u : Option α) : mergeField u none = u := by
  cases u <;> rfl

lemma mergeField_none_left (c : Option α) : mergeField none c = c := rfl

lemma deletePosts_append (stg a b : List PostRow) :
    deletePosts stg (a ++ b) = deletePosts stg a ++ deletePosts stg b := by
  simp [deletePosts, List.filter_append]

lemma deletePosts_self (rows : List PostRow) : deletePosts rows rows = [] := by
  rw [deletePosts, List.filter_eq_nil_iff]
  intro r hr
  simp only [Bool.not_eq_true', Bool.not_eq_false]
  exact List.any_eq_true.mpr ⟨r, hr, by simp [postKeyMatch]⟩

lemma deletePosts_idem (stg d : List PostRow) :
    deletePosts stg (deletePosts stg d) = deletePosts stg d := by
  simp [deletePosts, List.filter_filter]

lemma mergePosts_idem (rows d : List PostRow) :
    mergePosts rows (mergePosts rows d) = mergePosts rows d := by
  rw [mergePosts, mergePosts, deletePosts_append, deletePosts_self,
    deletePosts_idem, List.append_nil]

lemma deleteComments_append (stg a b : List CommentRow) :
    deleteComments stg (a ++ b) = deleteComments stg a ++ deleteComments stg b := by
  simp [deleteComments, List.filter_append]

lemma deleteComments_self (rows : List CommentRow)
    (h : ∀ r ∈ rows, r.comment_id.isSome) : deleteComments rows rows = [] := by
  rw [deleteComments, List.filter_eq_nil_iff]
  intro r hr
  simp only [Bool.not_eq_true', Bool.not_eq_false]
  refine List.any_eq_true.mpr ⟨r, hr, ?_⟩
  obtain ⟨x, hx⟩ := Option.isSome_iff_exists.mp (h r hr)
  simp [commentKeyMatch, sqlEqOpt, hx]

lemma deleteComments_idem (stg d : List CommentRow) :
    deleteComments stg (deleteComments stg d) = deleteComments stg d := by
  simp [deleteComments, List.filter_filter]

lemma mergeComments_idem (rows d : List CommentRow)
    (h : ∀ r ∈ rows, r.comment_id.isSome) :
    mergeComments rows (mergeComments rows d) = mergeComments rows d := by
  rw [mergeComments, mergeComments, deleteComments_append, deleteComments_self rows h,
    deleteComments_idem, List.append_nil]

/-- The posts phase with no SQL failure: staging written, matching rows
deleted, staging rows inserted, staging dropped. -/
lemma savePostsPhase_ok (pdf : List PostRow) (db : DB) :
    savePostsPhase pdf (fun _ => none) db =
      .ok (if pdf.isEmpty then db
        else { db with posts := mergePosts pdf db.posts, postsStg := none }) := by
  by_cases h : pdf.isEmpty <;> simp [savePostsPhase, h, mergePosts]

/-- The comments phase with no SQL failure. -/
lemma saveCommentsPhase_ok (cdf : List CommentRow) (db : DB) :
    saveCommentsPhase cdf (fun _ => none) db =
      .ok (if cdf.isEmpty then db
        else { db with comments := mergeComments cdf db.comments, commentsStg := none }) := by
  by_cases h : cdf.isEmpty <;> simp [saveCommentsPhase, h, mergeComments]

lemma save_to_database_ok_db (c : Ctx) (db : DB)
    (hEng : c.db_engine = some (some ())) :
    (save_to_database c (fun _ => none) db).2 =
      saveOkDB (c.processed_posts_df.getD []) (c.processed_comments_df.getD []) db := by
  simp [save_to_database, hEng, savePostsPhase_ok, saveCommentsPhase_ok, saveOkDB]

/-! ## Claim C2 — delete-phase key matching -/

/-- C2 (corrected): the delete phase removes exactly the destination rows
whose `post_id` (posts) or `(post_id, comment_id)` under SQL null semantics
(comments) match some staged row; `platform` is not part of either join
condition. -/
theorem deletePhaseKeyMatchAmended (stg dest : List PostRow)
    (cstg cdest : List CommentRow) (r : PostRow) (q : CommentRow) :
    (r ∈ deletePosts stg dest ↔ r ∈ dest ∧ ∀ s ∈ stg, s.post_id ≠ r.post_id) ∧
    (q ∈ deleteComments cstg cdest ↔ q ∈ cdest ∧
      ∀ s ∈ cstg, ¬(s.post_id = q.post_id ∧ sqlEqOpt s.comment_id q.comment_id = true)) := by
  constructor
  · simp [deletePosts, List.mem_filter, postKeyMatch, List.any_eq_true]
  · simp [deleteComments, List.mem_filter, commentKeyMatch, List.any_eq_true,
      not_and]

/-- C2 (counterexample): a destination row carrying the same `post_id` as a
staged row but a different `platform` — a row that differs from every staged
row in a natural-key column — is deleted anyway, because the join condition
compares `post_id` only. -/
theorem deleteCrossPlatformCounterexample :
    deletePosts [⟨some 1, some 3, "v", "facebook", "p1", "new", "t2", 1, 2, 3⟩]
        [⟨some 1, some 3, "u", "instagram", "p1", "old", "t", 0, 0, 0⟩] = [] ∧
    ("instagram" : String) ≠ "facebook" := by
  decide

/-! ## Claim C3 — staging-table lifetime -/

/-- C3 (counterexample): if the insert transaction fails, `save_to_database`
returns an error update but the staging table still exists after the call —
the `DROP TABLE` only runs inside the insert transaction, whose rollback
undoes it. -/
theorem stagingSurvivesFailureCounterexample :
    ((save_to_database
        { db_engine := some (some ()), processed_posts_df := some [c3PostRow] }
        (fun s => if s = SaveStep.insPosts then some "disk full" else none)
        ⟨[], [], none, none⟩).2.postsStg = some [c3PostRow]) ∧
    ((save_to_database
        { db_engine := some (some ()), processed_posts_df := some [c3PostRow] }
        (fun s => if s = SaveStep.insPosts then some "disk full" else none)
        ⟨[], [], none, none⟩).1.status = some "error") := by
  decide

/-- C3 (amended): when every SQL step succeeds, a call that starts with no
staging tables ends with no staging tables — release happens only on the
success path. -/
theorem stagingReleasedOnSuccessAmended (c : Ctx) (db : DB)
    (hp : db.postsStg = none) (hc : db.commentsStg = none) :
    (save_to_database c (fun _ => none) db).2.postsStg = none ∧
    (save_to_database c (fun _ => none) db).2.commentsStg = none := by
  by_cases hEng : (c.db_engine.getD none).isNone
  · simp [save_to_database, hEng, hp, hc]
  · have hEng' : c.db_engine = some (some ()) := by
      rcases h : c.db_engine with _ | e
      · rw [h] at hEng; simp at hEng
      · rcases e with _ | u
        · rw [h] at hEng; simp at hEng
        · rfl
    rw [save_to_database_ok_db c db hEng', saveOkDB]
    by_cases h1 : (c.processed_posts_df.getD []).isEmpty <;>
      by_cases h2 : (c.processed_comments_df.getD []).isEmpty <;>
        simp [h1, h2, hp, hc]

/-- Witness for `stagingReleasedOnSuccessAmended`. -/
theorem stagingReleasedOnSuccessAmendedWitness :
    (⟨[], [], none, none⟩ : DB).postsStg = none ∧
    (⟨[], [], none, none⟩ : DB).commentsStg = none ∧
    ((save_to_database { db_engine := some (some ()), processed_posts_df := some [c3PostRow] }
        (fun _ => none) ⟨[], [], none, none⟩).2.postsStg = none ∧
     (save_to_database { db_engine := some (some ()), processed_posts_df := some [c3PostRow] }
        (fun _ => none) ⟨[], [], none, none⟩).2.commentsStg = none) :=
  ⟨rfl, rfl,
    stagingReleasedOnSuccessAmended
      { db_engine := some (some ()), processed_posts_df := some [c3PostRow] }
      ⟨[], [], none, none⟩ rfl rfl⟩

/-! ## Claim C5 — idempotence of the merge -/

/-- C5 (counterexample): merging a row-set containing a comment with a NULL
`comment_id` twice duplicates it — the delete phase's SQL equality
`stg.comment_id = dest.comment_id` never matches a NULL, so the second merge
deletes nothing and inserts the row again. -/
theorem mergeIdempotenceCounterexample :
    (save_to_database nullIdCtx (fun _ => none) ⟨[], [], none, none⟩).2.comments =
      [nullIdComment] ∧
    (save_to_database nullIdCtx (fun _ => none)
        ((save_to_database nullIdCtx (fun _ => none) ⟨[], [], none, none⟩).2)).2.comments =
      [nullIdComment, nullIdComment] ∧
    ¬((save_to_database nullIdCtx (fun _ => none)
        ((save_to_database nullIdCtx (fun _ => none) ⟨[], [], none, none⟩).2)).2 =
      (save_to_database nullIdCtx (fun _ => none) ⟨[], [], none, none⟩).2) := by
  decide

/-- C5 (amended): provided every staged comment row carries a non-NULL
`comment_id`, running `save_to_database` twice on the same staged row-sets
yields exactly the database produced by running it once — no duplicate keys,
no changed values. (Post rows need no proviso: their `post_id` is a string
column, never NULL.) -/
theorem mergeIdempotentAmended (c : Ctx) (db : DB)
    (hEng : c.db_engine = some (some ()))
    (hIds : ∀ r ∈ c.processed_comments_df.getD [], r.comment_id.isSome) :
    (save_to_database c (fun _ => none)
        ((save_to_database c (fun _ => none) db).2)).2 =
      (save_to_database c (fun _ => none) db).2 := by
  rw [save_to_database_ok_db c db hEng,
    save_to_database_ok_db c _ hEng]
  unfold saveOkDB
  by_cases h1 : (c.processed_posts_df.getD []).isEmpty <;>
    by_cases h2 : (c.processed_comments_df.getD []).isEmpty <;>
      simp [h1, h2, mergePosts_idem, mergeComments_idem _ _ hIds]

/-- Witness for `mergeIdempotentAmended`. -/
theorem mergeIdempotentAmendedWitness :
    (idemCtx.db_engine = some (some ())) ∧
    (∀ r ∈ idemCtx.processed_comments_df.getD [], r.comment_id.isSome) ∧
    (save_to_database idemCtx (fun _ => none)
        ((save_to_database idemCtx (fun _ => none) ⟨[], [], none, none⟩).2)).2 =
      (save_to_database idemCtx (fun _ => none) ⟨[], [], none, none⟩).2 :=
  ⟨rfl, by decide,
    mergeIdempotentAmended idemCtx ⟨[], [], none, none⟩ rfl (by decide)⟩

/-! ## Claim C6 — replace semantics -/

/-- C6 (confirmed): merging a row-set containing a row whose key is already
present in the destination makes the destination hold the new row in full:
the new row is present, the old row is gone, and every surviving row with
that `post_id` comes from the staged row-set — a full-row replacement. -/
theorem mergeReplaceSemantics (c : Ctx) (db : DB) (rows : List PostRow)
    (rOld rNew : PostRow)
    (hEng : c.db_engine = some (some ()))
    (hdf : c.processed_posts_df = some rows)
    (hOld : rOld ∈ db.posts) (hNew : rNew ∈ rows)
    (hKey : rOld.post_id = rNew.post_id) (hNotIn : rOld ∉ rows) :
    rNew ∈ (save_to_database c (fun _ => none) db).2.posts ∧
    rOld ∉ (save_to_database c (fun _ => none) db).2.posts ∧
    ∀ r ∈ (save_to_database c (fun _ => none) db).2.posts,
      r.post_id = rNew.post_id → r ∈ rows := by
  have hne : rows.isEmpty = false := by
    cases rows with
    | nil => cases hNew
    | cons a l => rfl
  have hposts : (save_to_database c (fun _ => none) db).2.posts =
      mergePosts rows db.posts := by
    rw [save_to_database_ok_db c db hEng, saveOkDB]
    simp only [hdf, Option.getD_some, hne, Bool.false_eq_true, if_false]
    by_cases h2 : (c.processed_comments_df.getD []).isEmpty <;> simp [h2]
  rw [hposts]
  refine ⟨List.mem_append_right _ hNew, ?_, ?_⟩
  · intro hmem
    rcases List.mem_append.mp hmem with hdel | hins
    · have := (List.mem_filter.mp hdel).2
      simp only [Bool.not_eq_true', List.any_eq_false] at this
      exact absurd (by simp [postKeyMatch, hKey]) (this rNew hNew)
    · exact hNotIn hins
  · intro r hr hrkey
    rcases List.mem_append.mp hr with hdel | hins
    · have := (List.mem_filter.mp hdel).2
      simp only [Bool.not_eq_true', List.any_eq_false] at this
      exact absurd (by simp [postKeyMatch, hrkey]) (this rNew hNew)
    · exact hins

/-- Witness for `mergeReplaceSemantics`: the destination holds an old
version of post `p1`; the staged row-set carries a new version with
different caption and counts. -/
theorem mergeReplaceSemanticsWitness :
    (({ db_engine := some (some ()),
        processed_posts_df := some [⟨some 1, some 3, "v", "facebook", "p1", "new", "t2", 9, 9, 9⟩] } :
          Ctx).db_engine = some (some ())) ∧
    (⟨some 1, some 3, "u", "facebook", "p1", "old", "t1", 0, 0, 0⟩ : PostRow) ∈
      (⟨[⟨some 1, some 3, "u", "facebook", "p1", "old", "t1", 0, 0, 0⟩], [], none, none⟩ : DB).posts ∧
    ((⟨some 1, some 3, "v", "facebook", "p1", "new", "t2", 9, 9, 9⟩ : PostRow) ∈
      (save_to_database
        { db_engine := some (some ()),
          processed_posts_df := some [⟨some 1, some 3, "v", "facebook", "p1", "new", "t2", 9, 9, 9⟩] }
        (fun _ => none)
        ⟨[⟨some 1, some 3, "u", "facebook", "p1", "old", "t1", 0, 0, 0⟩], [], none, none⟩).2.posts ∧
     (⟨some 1, some 3, "u", "facebook", "p1", "old", "t1", 0, 0, 0⟩ : PostRow) ∉
      (save_to_database
        { db_engine := some (some ()),
          processed_posts_df := some [⟨some 1, some 3, "v", "facebook", "p1", "new", "t2", 9, 9, 9⟩] }
        (fun _ => none)
        ⟨[⟨some 1, some 3, "u", "facebook", "p1", "old", "t1", 0, 0, 0⟩], [], none, none⟩).2.posts ∧
     ∀ r ∈ (save_to_database
        { db_engine := some (some ()),
          processed_posts_df := some [⟨some 1, some 3, "v", "facebook", "p1", "new", "t2", 9, 9, 9⟩] }
        (fun _ => none)
        ⟨[⟨some 1, some 3, "u", "facebook", "p1", "old", "t1", 0, 0, 0⟩], [], none, none⟩).2.posts,
       r.post_id = (⟨some 1, some 3, "v", "facebook", "p1", "new", "t2", 9, 9, 9⟩ : PostRow).post_id →
         r ∈ [⟨some 1, some 3, "v", "facebook", "p1", "new", "t2", 9, 9, 9⟩]) :=
  ⟨rfl, by decide,
    mergeReplaceSemantics
      { db_engine := some (some ()),
        processed_posts_df := some [⟨some 1, some 3, "v", "facebook", "p1", "new", "t2", 9, 9, 9⟩] }
      ⟨[⟨some 1, some 3, "u", "facebook", "p1", "old", "t1", 0, 0, 0⟩], [], none, none⟩
      [⟨some 1, some 3, "v", "facebook", "p1", "new", "t2", 9, 9, 9⟩]
      ⟨some 1, some 3, "u", "facebook", "p1", "old", "t1", 0, 0, 0⟩
      ⟨some 1, some 3, "v", "facebook", "p1", "new", "t2", 9, 9, 9⟩
      rfl rfl (by decide) (by decide) (by decide) (by decide)⟩

/-! ## Claim C7 — empty input is a no-op -/

/-- C7 (confirmed): with a live engine and empty staged row-sets,
`save_to_database` leaves the database untouched — destination tables and
staging slots byte-for-byte unchanged, no staging table created — and
returns success reporting zero rows written. -/
theorem emptyInputNoop (c : Ctx) (fail : SaveStep → Option String) (db : DB)
    (hEng : c.db_engine = some (some ()))
    (hp : c.processed_posts_df.getD [] = [])
    (hc : c.processed_comments_df.getD [] = [])
    (hps : c.posts_scraped.getD 0 = 0) (hcs : c.comments_scraped.getD 0 = 0) :
    (save_to_database c fail db).2 = db ∧
    (save_to_database c fail db).1.status = some "success" ∧
    (save_to_database c fail db).1.message =
      some "Successfully saved 0 posts and 0 comments to database" := by
  refine ⟨?_, ?_, ?_⟩ <;>
    simp [save_to_database, hEng, savePostsPhase, saveCommentsPhase, hp, hc, hps, hcs] <;>
    rfl

/-- Witness for `emptyInputNoop`, on an arbitrary concrete database with a
fresh save-stage context. -/
theorem emptyInputNoopWitness :
    (({ db_engine := some (some ()) } : Ctx).db_engine = some (some ())) ∧
    (({ db_engine := some (some ()) } : Ctx).processed_posts_df.getD [] = []) ∧
    ((save_to_database { db_engine := some (some ()) } (fun _ => none)
        ⟨[c3PostRow], [nullIdComment], none, none⟩).2 =
      ⟨[c3PostRow], [nullIdComment], none, none⟩ ∧
     (save_to_database { db_engine := some (some ()) } (fun _ => none)
        ⟨[c3PostRow], [nullIdComment], none, none⟩).1.status = some "success" ∧
     (save_to_database { db_engine := some (some ()) } (fun _ => none)
        ⟨[c3PostRow], [nullIdComment], none, none⟩).1.message =
      some "Successfully saved 0 posts and 0 comments to database") :=
  ⟨rfl, rfl,
    emptyInputNoop { db_engine := some (some ()) } (fun _ => none)
      ⟨[c3PostRow], [nullIdComment], none, none⟩ rfl rfl rfl rfl rfl⟩

/-! ## Claim C4 — comment cap -/

/-- C4 (counterexample): the Instagram normalizer emits one Comment row per
nested comment with no cap — a post with 10 raw comments yields 10 rows,
not min(10, 3) = 3; `comment_limit` is not consulted by the Instagram
`process_comments_data` loop at all. -/
theorem igCommentCapCounterexample :
    (igCommentsFor igPostTen).length = 10 ∧
    igPostTen.comments_data.length = 10 ∧
    ¬((igCommentsFor igPostTen).length = min igPostTen.comments_data.length 3) := by
  decide

/-- C4 (amended): the Facebook normalizer emits exactly
`min n comment_limit` Comment rows per post, taken from the head of the
adapter order with no re-sorting (`comments_data[:comment_limit]`); the
Instagram normalizer emits all `n` nested comments, its cap being applied
earlier, at fetch time, through the API `limit` parameter. -/
theorem commentCapAmended (cl : Nat) (p : RawPost) (q : RawIgPost) :
    (fbCommentsFor cl p).length = min p.comments.length cl ∧
    fbCommentsFor cl p = (p.comments.map (fbCommentRow p.id)).take cl ∧
    (igCommentsFor q).length = q.comments_data.length := by
  refine ⟨?_, ?_, ?_⟩
  · simp [fbCommentsFor, Nat.min_comm]
  · simp [fbCommentsFor, List.map_take]
  · simp [igCommentsFor]

/-! ## Claim C8 — default filling in the normalizer -/

/-- C8 (counterexample): the Instagram normalizer copies `like_count`
without per-row defaulting; when the column exists (some post in the batch
has the field) a post lacking it gets a missing-value (NaN) cell, not 0. -/
theorem igMissingCountCounterexample :
    (igProcessPostsRows
        [⟨"a", some "x", some 5, some 1, some "t", []⟩,
         ⟨"b", none, none, none, some "t", []⟩]).map IgPostRow.total_likes =
      [some 5, none] ∧
    ((none : Option Nat) ≠ some 0) := by
  decide

/-- C8 (amended): the per-row defaults hold only when each optional field's
pandas column exists in the batch. Facebook: when every one of
`message`/`shares`/`likes`/`comments` is carried by at least one post in
the batch, the normalizer emits exactly one row per raw post, a missing
caption becomes `""` and missing counts become `0`; but when such a field
is absent from every post in the batch — for example every post lacking a
text `message` — the column access raises `KeyError` and the stage reports
`status=error` with zero rows instead of defaulting. Instagram: a missing
caption maps to `""`, and the count columns default to `0` only when the
field is absent from the whole batch; a post missing `like_count` while
another post carries it receives a missing-value marker (see the
counterexample). -/
theorem normalizerDefaultsAmended (ps : List RawPost) (p : RawPost)
    (qs : List RawIgPost)
    (hcols : fbMissingColumn ps = none)
    (hm : p.message = none)
    (hql : ∀ t ∈ qs, t.like_count = none)
    (hqc : ∀ t ∈ qs, t.comments_count = none) :
    fbProcessPosts ps = .ok (fbProcessPostsRows ps) ∧
    (fbProcessPostsRows ps).length = ps.length ∧
    (fbPostRow p).post_caption = "" ∧
    fbCount none = 0 ∧ fbCount (some none) = 0 ∧ fbShares none = 0 ∧
    (∀ ps2 : List RawPost, (∀ t ∈ ps2, t.message = none) →
      fbProcessPosts ps2 = .error "\x27message\x27") ∧
    (igProcessPostsRows qs).length = qs.length ∧
    (∀ r ∈ igProcessPostsRows qs, r.total_likes = some 0 ∧
      r.total_comments = some 0) ∧
    (∀ t : RawIgPost, t.caption = none →
      ∀ r ∈ igProcessPostsRows [t], r.post_caption = "") := by
  refine ⟨by simp [fbProcessPosts, hcols], by simp [fbProcessPostsRows],
    by simp [fbPostRow, hm], rfl, rfl, rfl, ?_,
    by simp [igProcessPostsRows], ?_, ?_⟩
  · intro ps2 hall
    have hany : ps2.any (fun t => t.message.isSome) = false := by
      simp only [List.any_eq_false]
      intro t ht
      simp [hall t ht]
    simp [fbProcessPosts, fbMissingColumn, hany]
  · have hl : qs.any (fun t => t.like_count.isSome) = false := by
      simp only [List.any_eq_false]
      intro t ht
      simp [hql t ht]
    have hc : qs.any (fun t => t.comments_count.isSome) = false := by
      simp only [List.any_eq_false]
      intro t ht
      simp [hqc t ht]
    intro r hr
    simp only [igProcessPostsRows, hl, hc, List.mem_map] at hr
    obtain ⟨t, _, ht⟩ := hr
    constructor <;> simp [← ht]
  · intro t htc r hr
    simp only [igProcessPostsRows, List.mem_map] at hr
    obtain ⟨u, hu, hut⟩ := hr
    have : u = t := by simpa using hu
    subst this
    by_cases hcap : [u].any (fun v => v.caption.isSome) = true <;>
      simp_all [← hut, htc]

/-- Witness for `normalizerDefaultsAmended`: a Facebook batch in which each
optional column exists (the first post carries every field) while the
second post misses all of them, plus an Instagram batch with no
`like_count`/`comments_count` anywhere. -/
theorem normalizerDefaultsAmendedWitness :
    (fbMissingColumn
      [⟨"f1", some "hello", "t1", some (some 5), some (some 1), some 2, []⟩,
       ⟨"f2", none, "t2", none, none, none, []⟩] = none) ∧
    ((⟨"f2", none, "t2", none, none, none, []⟩ : RawPost).message = none) ∧
    (∀ t ∈ [(⟨"b", none, none, none, some "t", []⟩ : RawIgPost)],
      t.like_count = none) ∧
    (fbProcessPosts
        [⟨"f1", some "hello", "t1", some (some 5), some (some 1), some 2, []⟩,
         ⟨"f2", none, "t2", none, none, none, []⟩] =
      .ok (fbProcessPostsRows
        [⟨"f1", some "hello", "t1", some (some 5), some (some 1), some 2, []⟩,
         ⟨"f2", none, "t2", none, none, none, []⟩]) ∧
     (fbProcessPostsRows
        [⟨"f1", some "hello", "t1", some (some 5), some (some 1), some 2, []⟩,
         ⟨"f2", none, "t2", none, none, none, []⟩]).length = 2 ∧
     (fbPostRow ⟨"f2", none, "t2", none, none, none, []⟩).post_caption = "" ∧
     fbCount none = 0 ∧ fbCount (some none) = 0 ∧ fbShares none = 0 ∧
     (∀ ps2 : List RawPost, (∀ t ∈ ps2, t.message = none) →
        fbProcessPosts ps2 = .error "\x27message\x27") ∧
     (igProcessPostsRows [⟨"b", none, none, none, some "t", []⟩]).length = 1 ∧
     (∀ r ∈ igProcessPostsRows [⟨"b", none, none, none, some "t", []⟩],
        r.total_likes = some 0 ∧ r.total_comments = some 0) ∧
     (∀ t : RawIgPost, t.caption = none →
        ∀ r ∈ igProcessPostsRows [t], r.post_caption = "")) :=
  ⟨rfl, rfl, by decide,
    normalizerDefaultsAmended
      [⟨"f1", some "hello", "t1", some (some 5), some (some 1), some 2, []⟩,
       ⟨"f2", none, "t2", none, none, none, []⟩]
      ⟨"f2", none, "t2", none, none, none, []⟩
      [⟨"b", none, none, none, some "t", []⟩]
      rfl rfl (by decide) (by decide)⟩

/-! ## Stage-update shape lemmas -/

lemma save_upd_posts_scraped (c : Ctx) (fail : SaveStep → Option String) (db : DB) :
    (save_to_database c fail db).1.posts_scraped = none := by
  unfold save_to_database
  split
  · rfl
  · split
    · simp [saveErrUpd]
    · split <;> simp [saveErrUpd]

lemma save_upd_posts_data (c : Ctx) (fail : SaveStep → Option String) (db : DB) :
    (save_to_database c fail db).1.posts_data = none := by
  unfold save_to_database
  split
  · rfl
  · split
    · simp [saveErrUpd]
    · split <;> simp [saveErrUpd]

lemma save_upd_comments_scraped (c : Ctx) (fail : SaveStep → Option String) (db : DB) :
    (save_to_database c fail db).1.comments_scraped = none := by
  unfold save_to_database
  split
  · rfl
  · split
    · simp [saveErrUpd]
    · split <;> simp [saveErrUpd]

lemma save_upd_comments_data (c : Ctx) (fail : SaveStep → Option String) (db : DB) :
    (save_to_database c fail db).1.comments_data = none := by
  unfold save_to_database
  split
  · rfl
  · split
    · simp [saveErrUpd]
    · split <;> simp [saveErrUpd]

lemma save_upd_status_isSome (c : Ctx) (fail : SaveStep → Option String) (db : DB) :
    (save_to_database c fail db).1.status.isSome := by
  unfold save_to_database
  split
  · rfl
  · split
    · simp [saveErrUpd]
    · split <;> simp [saveErrUpd]

lemma save_upd_message_isSome (c : Ctx) (fail : SaveStep → Option String) (db : DB) :
    (save_to_database c fail db).1.message.isSome := by
  unfold save_to_database
  split
  · rfl
  · split
    · simp [saveErrUpd]
    · split <;> simp [saveErrUpd]

/-! ## Claim C9 — stages always report status and message, never raise -/

/-- C9 (confirmed): every stage is a total function of the context and its
injected external outcome (the `try` body's result), and on every input —
including every injected failure — its partial update carries a `status`
and a `message`. No exception escapes a stage: failures only surface as
`status=error` updates, so the orchestrator always completes. -/
theorem stagesAlwaysReportStatusMessage (c : Ctx) (tok : String)
    (ri : Except String Unit) (rf : Except String (Option (List RawPost)))
    (e1 e2 : Option String) (fail : SaveStep → Option String) (db : DB) :
    ((init_scraper c tok ri).status.isSome ∧ (init_scraper c tok ri).message.isSome) ∧
    ((fetch_facebook_posts rf).status.isSome ∧
      (fetch_facebook_posts rf).message.isSome) ∧
    ((process_posts_data c e1).status.isSome ∧
      (process_posts_data c e1).message.isSome) ∧
    ((process_comments_data c e2).status.isSome ∧
      (process_comments_data c e2).message.isSome) ∧
    ((save_to_database c fail db).1.status.isSome ∧
      (save_to_database c fail db).1.message.isSome) := by
  refine ⟨?_, ?_, ?_, ?_, save_upd_status_isSome c fail db,
    save_upd_message_isSome c fail db⟩
  · cases ri <;> exact ⟨rfl, rfl⟩
  · cases rf <;> exact ⟨rfl, rfl⟩
  · cases hx : c.raw_posts_data.getD none with
    | none => simp [process_posts_data, hx]
    | some ps =>
      by_cases h : ps.isEmpty <;> cases e1 <;>
        cases hfp : fbProcessPosts ps <;>
          simp [process_posts_data, hx, h, hfp]
  · cases hx : c.raw_posts_data.getD none with
    | none => simp [process_comments_data, hx]
    | some ps =>
      by_cases h : ps.isEmpty
      · simp [process_comments_data, hx, h]
      · cases hcl : c.comment_limit <;> cases e2 <;>
          simp [process_comments_data, hx, h, hcl]

/-! ## Claim C10 — scraped counts always equal data lengths -/

lemma process_posts_count_eq (c : Ctx) (e : Option String) :
    (process_posts_data c e).posts_scraped.getD 0 =
      ((process_posts_data c e).posts_data.getD []).length := by
  cases hx : c.raw_posts_data.getD none with
  | none => simp [process_posts_data, hx]
  | some ps =>
    by_cases h : ps.isEmpty <;> cases e <;>
      cases hfp : fbProcessPosts ps <;>
        simp [process_posts_data, hx, h, hfp]

lemma process_comments_count_eq (c : Ctx) (e : Option String) :
    (process_comments_data c e).comments_scraped.getD 0 =
      ((process_comments_data c e).comments_data.getD []).length := by
  cases hx : c.raw_posts_data.getD none with
  | none => simp [process_comments_data, hx]
  | some ps =>
    by_cases h : ps.isEmpty
    · simp [process_comments_data, hx, h]
    · cases hcl : c.comment_limit <;> cases e <;>
        simp [process_comments_data, hx, h, hcl, if_isEmpty_eq, if_eq_nil_eq]

/-- C10 (confirmed): on every execution path — every combination of stage
successes and injected failures — the final output's `posts_scraped` equals
the length of its `posts_data` and `comments_scraped` equals the length of
its `comments_data`; on error paths all four default to zero / empty. -/
theorem scrapedCountsMatchDataLengths (pl cl : Option Nat) (ext : Externals)
    (db : DB) :
    (runPipeline pl cl ext db).1.posts_scraped =
      (runPipeline pl cl ext db).1.posts_data.length ∧
    (runPipeline pl cl ext db).1.comments_scraped =
      (runPipeline pl cl ext db).1.comments_data.length := by
  obtain ⟨tok, ri, rf, pe, ce, sf⟩ := ext
  rcases rf with e | (_ | (_ | ⟨a, l⟩))
  · cases ri <;> cases pe <;> cases ce <;>
      simp [runPipeline, initialCtx, mergeCtx, mergeField, init_scraper,
        fetch_facebook_posts, process_posts_data, process_comments_data,
        finalize_results, save_upd_posts_scraped, save_upd_posts_data,
        save_upd_comments_scraped, save_upd_comments_data, if_isEmpty_eq,
        if_eq_nil_eq]
  · cases ri <;> cases pe <;> cases ce <;>
      simp [runPipeline, initialCtx, mergeCtx, mergeField, init_scraper,
        fetch_facebook_posts, process_posts_data, process_comments_data,
        finalize_results, save_upd_posts_scraped, save_upd_posts_data,
        save_upd_comments_scraped, save_upd_comments_data, if_isEmpty_eq,
        if_eq_nil_eq]
  · cases ri <;> cases pe <;> cases ce <;>
      simp [runPipeline, initialCtx, mergeCtx, mergeField, init_scraper,
        fetch_facebook_posts, process_posts_data, process_comments_data,
        finalize_results, save_upd_posts_scraped, save_upd_posts_data,
        save_upd_comments_scraped, save_upd_comments_data, if_isEmpty_eq,
        if_eq_nil_eq]
  · cases ri <;> cases pe <;> cases ce <;>
      rcases hfp : fbProcessPosts (a :: l) with ke | rows <;>
        simp [runPipeline, initialCtx, mergeCtx, mergeField, init_scraper,
          fetch_facebook_posts, process_posts_data, process_comments_data,
          finalize_results, save_upd_posts_scraped, save_upd_posts_data,
          save_upd_comments_scraped, save_upd_comments_data, if_isEmpty_eq,
          if_eq_nil_eq, hfp]

/-! ## Claim C1 — behaviour after a fetch failure -/

/-- C1 (amended): when initialization succeeds but the fetch stage reports
`status=error`, every downstream stage still runs and the final output has
`posts_scraped = 0`, `comments_scraped = 0` and empty data lists — but
`finalize` returns `status=success`, not `status=error`: the save stage,
finding both row-sets empty, overwrites the accumulated error with a
success update, and the fetch failure's message is replaced by
"Successfully saved 0 posts and 0 comments to database". The database is
untouched. -/
theorem fetchErrorContinuationAmended (pl cl : Option Nat) (tok e : String)
    (db : DB) :
    ((runPipeline pl cl ⟨tok, .ok (), .error e, none, none, fun _ => none⟩
        db).1.posts_scraped = 0) ∧
    ((runPipeline pl cl ⟨tok, .ok (), .error e, none, none, fun _ => none⟩
        db).1.comments_scraped = 0) ∧
    ((runPipeline pl cl ⟨tok, .ok (), .error e, none, none, fun _ => none⟩
        db).1.posts_data = []) ∧
    ((runPipeline pl cl ⟨tok, .ok (), .error e, none, none, fun _ => none⟩
        db).1.comments_data = []) ∧
    ((runPipeline pl cl ⟨tok, .ok (), .error e, none, none, fun _ => none⟩
        db).1.status = "success") ∧
    ((runPipeline pl cl ⟨tok, .ok (), .error e, none, none, fun _ => none⟩
        db).1.message = "Successfully saved 0 posts and 0 comments to database") ∧
    ((runPipeline pl cl ⟨tok, .ok (), .error e, none, none, fun _ => none⟩
        db).2 = db) := by
  refine ⟨rfl, rfl, rfl, rfl, rfl, ?_, rfl⟩
  have h : (runPipeline pl cl ⟨tok, .ok (), .error e, none, none, fun _ => none⟩
      db).1.message =
      s!"Successfully saved {(0 : Nat)} posts and {(0 : Nat)} comments to database" := rfl
  rw [h]
  rfl

/-- C1 (counterexample): the fetch stage reports `status=error` with message
"Failed to fetch posts: network down", yet the pipeline's final status is
"success" (not "error") and the final message is the save stage's, not the
fetch failure's — the claim's status/message-preservation part is false. -/
theorem fetchErrorClaimCounterexample :
    ((fetch_facebook_posts (.error "network down")).status = some "error") ∧
    ((fetch_facebook_posts (.error "network down")).message =
      some "Failed to fetch posts: network down") ∧
    ((runPipeline (some 5) (some 5) c1Externals ⟨[], [], none, none⟩).1.status ≠
      "error") ∧
    ((runPipeline (some 5) (some 5) c1Externals ⟨[], [], none, none⟩).1.status =
      "success") ∧
    ((runPipeline (some 5) (some 5) c1Externals ⟨[], [], none, none⟩).1.message ≠
      "Failed to fetch posts: network down") := by
  decide

end McpScraper
